import Mathlib

set_option linter.unusedVariables false

/-!
Verification of `pyclashbot/emulators/base.py`: the abstract
`BaseEmulatorController` interface and its installation-wait coordinator.

Modelling choices (shallow embedding):
* The mutable attributes `current_package_name` (possibly unset, read via
  `getattr` with a default) and `installation_waiting` become a `CoordState`
  record; an unset `current_package_name` is `none`.
* Logger/UI calls (`log`, `change_status`, `show_temporary_action`) and
  `time.sleep` become an explicit `Event` trace; the callback object passed to
  `show_temporary_action` is identified by the `Callback` tag (this file has a
  single callback, the bound method `_retry_installation_check`).
* Python exceptions become `Except PyError`; the base-class method stubs all
  return `.error .notImplementedError`.
* The method `self._is_package_installed` is a subclass responsibility, so the
  coordinator is parametrised by a function `is_installed : String → Bool`.
* The busy-wait loop `while self.installation_waiting: time.sleep(0.5)` is
  driven by a schedule `List Bool`: one entry per sleep interval, `true`
  meaning the UI actor invokes the retry callback during that interval.  A
  schedule that ends while the flag is still set models non-termination
  (result `none`).  Each `time.sleep(0.5)` is recorded as `Event.sleep 500`
  (milliseconds).
-/

/-- Tag identifying the only callback value occurring in the file: the bound
method `self._retry_installation_check` passed to `show_temporary_action`. -/
inductive Callback where
  | retryInstallationCheck
deriving DecidableEq, Repr

/-- An observable effect of the coordinator: a logger/UI call or a sleep. -/
inductive Event where
  | log (message : String)
  | changeStatus (message : String)
  | showTemporaryAction (message : String) (actionText : String) (callback : Callback)
  | sleep (milliseconds : Nat)
deriving DecidableEq, Repr

/-- Python exceptions relevant to this file. -/
inductive PyError where
  | notImplementedError
deriving DecidableEq, Repr

/-- Record of the mutable coordinator attributes of `BaseEmulatorController`:
`current_package_name` (`none` when the attribute was never assigned, matching
the `getattr(self, "current_package_name", default)` probe) and
`installation_waiting`. -/
structure CoordState where
  current_package_name : Option String
  installation_waiting : Bool
deriving DecidableEq, Repr

/-- Predicate selecting `show_temporary_action` events. -/
def Event.isShowTemporaryAction : Event → Bool
  | .showTemporaryAction _ _ _ => true
  | _ => false

/-- Predicate selecting sleep events. -/
def Event.isSleep : Event → Bool
  | .sleep _ => true
  | _ => false

/-- Predicate selecting plain `log` events. -/
def Event.isLog : Event → Bool
  | .log _ => true
  | _ => false

/-- Projection of the prompt message of a `show_temporary_action` event. -/
def Event.showMessage : Event → Option String
  | .showTemporaryAction m _ _ => some m
  | _ => none

/-- Projection of the action text and callback of a `show_temporary_action`
event. -/
def Event.showActionParts : Event → Option (String × Callback)
  | .showTemporaryAction _ a c => some (a, c)
  | _ => none

namespace BaseEmulatorController

/-- Models `def __init__(self): raise NotImplementedError` — the base
constructor unconditionally raises, producing no instance state. -/
def init : Except PyError CoordState :=
  .error .notImplementedError

/-- Models `def create(self): raise NotImplementedError`. -/
def create : Except PyError Unit :=
  .error .notImplementedError

/-- Models `def configure(self): raise NotImplementedError`. -/
def configure : Except PyError Unit :=
  .error .notImplementedError

/-- Models `def restart(self): raise NotImplementedError`. -/
def restart : Except PyError Unit :=
  .error .notImplementedError

/-- Models `def start(self): raise NotImplementedError`. -/
def start : Except PyError Unit :=
  .error .notImplementedError

/-- Models `def stop(self): raise NotImplementedError`. -/
def stop : Except PyError Unit :=
  .error .notImplementedError

/-- Models `def click(self, x_coord, y_coord, clicks, interval): raise
NotImplementedError` — raises regardless of the arguments (the `float`
argument `interval` is never inspected, so its carrier type is a parameter). -/
def click {Interval : Type} (x_coord y_coord : Int) (clicks : Nat)
    (interval : Interval) : Except PyError Unit :=
  .error .notImplementedError

/-- Models `def swipe(self, x_coord1, y_coord1, x_coord2, y_coord2): raise
NotImplementedError`. -/
def swipe (x_coord1 y_coord1 x_coord2 y_coord2 : Int) : Except PyError Unit :=
  .error .notImplementedError

/-- An in-memory image (`np.ndarray`): height × width × channel buffer. -/
abbrev NdArray := List (List (List Nat))

/-- Models `def screenshot(self) -> np.ndarray: raise NotImplementedError`. -/
def screenshot : Except PyError NdArray :=
  .error .notImplementedError

/-- Models `def install_apk(self, apk_path): raise NotImplementedError`. -/
def install_apk (apk_path : String) : Except PyError Unit :=
  .error .notImplementedError

/-- Models `def start_app(self, package_name): raise NotImplementedError`. -/
def start_app (package_name : String) : Except PyError Unit :=
  .error .notImplementedError

/-- Models `def _is_package_installed(self, package_name) -> bool: raise
NotImplementedError` — the base-class stub. -/
def is_package_installed_stub (package_name : String) : Except PyError Bool :=
  .error .notImplementedError

/-- Models `getattr(self, "current_package_name", "com.supercell.clashroyale")`:
the package name the retry callback queries, falling back to the default when
the attribute was never set. -/
def retry_package_name (s : CoordState) : String :=
  s.current_package_name.getD "com.supercell.clashroyale"

/-- Models `_retry_installation_check(self)`: the callback triggered when the
user clicks the Retry button.  Returns the updated attribute state and the
trace of logger/UI calls it makes. -/
def retry_installation_check (is_installed : String → Bool) (s : CoordState) :
    CoordState × List Event :=
  if is_installed (retry_package_name s) then
    ({ s with installation_waiting := false },
     [.changeStatus "Checking for package installation...",
      .changeStatus "Installation complete - continuing..."])
  else
    (s,
     [.changeStatus "Checking for package installation...",
      .showTemporaryAction
        (retry_package_name s ++ " still not found - please install it and complete tutorial")
        "Retry" .retryInstallationCheck,
      .log ("[!] " ++ retry_package_name s ++ " still not installed. Please try again.")])

/-- The attribute state at the top of the `while` loop of
`_wait_for_clash_installation`: `current_package_name` has been assigned the
argument and `installation_waiting` has been set to `True`. -/
def wait_setup_state (package_name : String) (s : CoordState) : CoordState :=
  { s with current_package_name := some package_name, installation_waiting := true }

/-- The logger calls `_wait_for_clash_installation` makes before entering its
`while` loop: one temporary Retry action, then two informational log lines. -/
def wait_setup_events (package_name : String) : List Event :=
  [.showTemporaryAction
      (package_name ++ " not installed - please install it and complete tutorial")
      "Retry" .retryInstallationCheck,
   .log ("[!] " ++ package_name ++ " not installed."),
   .log "Please install it in the emulator, complete tutorial, then click Retry in the GUI"]

/-- One sleep interval of the busy-wait: when `click` is `true` the UI actor
invokes `_retry_installation_check` during the interval, otherwise the state
is untouched and nothing is traced. -/
def wait_iter (is_installed : String → Bool) (click : Bool) (s : CoordState) :
    CoordState × List Event :=
  if click then retry_installation_check is_installed s else (s, [])

/-- Models `while self.installation_waiting: time.sleep(0.5)` — each schedule
entry drives one sleep interval.  `none` models the loop still running when
the schedule is exhausted. -/
def wait_loop (is_installed : String → Bool) :
    List Bool → CoordState → Option (CoordState × List Event)
  | sched, s =>
    if s.installation_waiting then
      match sched with
      | [] => none
      | click :: rest =>
        match wait_loop is_installed rest (wait_iter is_installed click s).1 with
        | none => none
        | some (s'', evs') =>
            some (s'', Event.sleep 500 :: ((wait_iter is_installed click s).2 ++ evs'))
    else
      some (s, [])

/-- Models `_wait_for_clash_installation(self, package_name)`: assigns
`current_package_name`, shows the Retry action, logs twice, sets
`installation_waiting = True`, busy-waits on the flag, then logs a
confirmation and returns `True`.  `none` models the call never returning. -/
def wait_for_clash_installation (is_installed : String → Bool)
    (sched : List Bool) (package_name : String) (s : CoordState) :
    Option (CoordState × List Event × Bool) :=
  match wait_loop is_installed sched (wait_setup_state package_name s) with
  | none => none
  | some (s', loopEvents) =>
      some (s',
        wait_setup_events package_name ++ loopEvents ++
          [.log "[+] Installation confirmed, continuing..."],
        true)

/-- Models `__del__(self)`: probes `getattr(self, "_auto_stop_on_del", True)`
(`none` = attribute unset) and, when the probe yields true, calls
`self.stop()`, with any exception from the guarded block discarded.
`stop_impl` is the (possibly overridden, possibly raising) `stop` of the
object being destroyed.  Returns how many times `stop` was invoked and the
outcome of `__del__` itself. -/
def del_method (auto_stop_on_del : Option Bool)
    (stop_impl : Except PyError Unit) : Nat × Except PyError Unit :=
  if auto_stop_on_del.getD true then
    match stop_impl with
    | .ok _ => (1, .ok ())
    | .error _ => (1, .ok ())
  else
    (0, .ok ())

/-- States reachable from `s` by zero or more invocations of the retry
callback (the only code that mutates the coordinator attributes between the
registration of the Retry action and the end of the wait). -/
inductive RetryReachable (is_installed : String → Bool) (s : CoordState) : CoordState → Prop
  | refl : RetryReachable is_installed s s
  | step (t : CoordState) : RetryReachable is_installed s t →
      RetryReachable is_installed s (retry_installation_check is_installed t).1

end BaseEmulatorController

namespace BaseEmulatorController

/-! ### Helper lemmas -/

theorem retry_preserves_package (f : String → Bool) (s : CoordState) :
    (retry_installation_check f s).1.current_package_name = s.current_package_name := by
  unfold retry_installation_check
  by_cases h : f (retry_package_name s) <;> simp [h]

theorem retry_events_sleep_free (f : String → Bool) (s : CoordState) :
    ∀ e ∈ (retry_installation_check f s).2, Event.isSleep e = false := by
  unfold retry_installation_check
  by_cases h : f (retry_package_name s) <;> simp [h, Event.isSleep]

theorem wait_iter_preserves_package (f : String → Bool) (click : Bool) (s : CoordState) :
    (wait_iter f click s).1.current_package_name = s.current_package_name := by
  cases click <;> simp [wait_iter, retry_preserves_package]

theorem wait_iter_events_sleep_free (f : String → Bool) (click : Bool) (s : CoordState) :
    ∀ e ∈ (wait_iter f click s).2, Event.isSleep e = false := by
  cases click <;> simp [wait_iter]
  exact retry_events_sleep_free f s

/-- Every successful run of the busy-wait loop ends with the flag cleared,
leaves `current_package_name` untouched, and every sleep in its trace is the
500 ms interval of `time.sleep(0.5)`. -/
theorem wait_loop_spec (f : String → Bool) (sched : List Bool) :
    ∀ (s s' : CoordState) (evs : List Event),
      wait_loop f sched s = some (s', evs) →
      s'.installation_waiting = false ∧
      s'.current_package_name = s.current_package_name ∧
      evs.all (fun e => !(Event.isSleep e) || e == Event.sleep 500) = true := by
  induction sched with
  | nil =>
      intro s s' evs h
      unfold wait_loop at h
      by_cases hw : s.installation_waiting
      · simp [hw] at h
      · simp [hw] at h
        obtain ⟨rfl, rfl⟩ := h
        exact ⟨by simpa using hw, rfl, by simp⟩
  | cons click rest ih =>
      intro s s' evs h
      unfold wait_loop at h
      by_cases hw : s.installation_waiting
      · simp only [hw, if_true] at h
        rcases hrec : wait_loop f rest (wait_iter f click s).1 with _ | ⟨s2, evs2⟩ <;>
          rw [hrec] at h
        · exact absurd h (by simp)
        · simp only [Option.some.injEq, Prod.mk.injEq] at h
          obtain ⟨rfl, rfl⟩ := h
          obtain ⟨h1, h2, h3⟩ := ih _ _ _ hrec
          refine ⟨h1, by rw [h2, wait_iter_preserves_package], ?_⟩
          simp only [List.all_cons, List.all_append, h3, Bool.and_true]
          rw [Bool.and_eq_true]
          refine ⟨by simp [Event.isSleep], ?_⟩
          rw [List.all_eq_true]
          intro e he
          simp [wait_iter_events_sleep_free f click s e he]
      · simp [hw] at h
        obtain ⟨rfl, rfl⟩ := h
        exact ⟨by simpa using hw, rfl, by simp⟩

/-! ### Claim theorems -/

/-- C1: for every package name `p`, `_wait_for_clash_installation(p)` records
`p` as the pending target, registers one temporary Retry action, emits two
informational log lines, sets `installation_waiting` to true, sleeps 500 ms
per loop iteration, does not return while the flag is still true (a returning
run has the flag cleared), and on return logs a confirmation line and returns
exactly `True`. -/
theorem wait_for_clash_installation_spec (f : String → Bool) (sched : List Bool)
    (p : String) (s s' : CoordState) (evs : List Event) (r : Bool)
    (h : wait_for_clash_installation f sched p s = some (s', evs, r)) :
    r = true ∧
    (wait_setup_state p s).current_package_name = some p ∧
    (wait_setup_state p s).installation_waiting = true ∧
    s'.current_package_name = some p ∧
    s'.installation_waiting = false ∧
    evs.take 3 =
      [Event.showTemporaryAction (p ++ " not installed - please install it and complete tutorial")
        "Retry" Callback.retryInstallationCheck,
       Event.log ("[!] " ++ p ++ " not installed."),
       Event.log "Please install it in the emulator, complete tutorial, then click Retry in the GUI"] ∧
    evs.getLast? = some (Event.log "[+] Installation confirmed, continuing...") ∧
    evs.all (fun e => !(Event.isSleep e) || e == Event.sleep 500) = true := by
  unfold wait_for_clash_installation at h
  rcases hrec : wait_loop f sched (wait_setup_state p s) with _ | ⟨s2, loopEvents⟩ <;>
    rw [hrec] at h
  · exact absurd h (by simp)
  · simp only [Option.some.injEq, Prod.mk.injEq] at h
    obtain ⟨rfl, rfl, rfl⟩ := h
    obtain ⟨h1, h2, h3⟩ := wait_loop_spec f sched _ _ _ hrec
    refine ⟨rfl, rfl, rfl, ?_, h1, ?_, ?_, ?_⟩
    · rw [h2]; rfl
    · simp [wait_setup_events]
    · rw [List.getLast?_append_cons]; simp
    · simp only [List.all_append, List.all_cons, h3, Bool.and_true]
      simp [wait_setup_events, Event.isSleep]


/-- Witness for C1: a concrete run with package "a" where the user installs the
package and clicks Retry during the first polling interval. -/
theorem wait_for_clash_installation_spec_witness :
    true = true ∧
    (wait_setup_state "a" ⟨none, false⟩).current_package_name = some "a" ∧
    (wait_setup_state "a" ⟨none, false⟩).installation_waiting = true ∧
    (⟨some "a", false⟩ : CoordState).current_package_name = some "a" ∧
    (⟨some "a", false⟩ : CoordState).installation_waiting = false ∧
    ([Event.showTemporaryAction "a not installed - please install it and complete tutorial"
        "Retry" Callback.retryInstallationCheck,
      Event.log "[!] a not installed.",
      Event.log "Please install it in the emulator, complete tutorial, then click Retry in the GUI",
      Event.sleep 500,
      Event.changeStatus "Checking for package installation...",
      Event.changeStatus "Installation complete - continuing...",
      Event.log "[+] Installation confirmed, continuing..."].take 3 =
      [Event.showTemporaryAction ("a" ++ " not installed - please install it and complete tutorial")
        "Retry" Callback.retryInstallationCheck,
       Event.log ("[!] " ++ "a" ++ " not installed."),
       Event.log "Please install it in the emulator, complete tutorial, then click Retry in the GUI"]) ∧
    ([Event.showTemporaryAction "a not installed - please install it and complete tutorial"
        "Retry" Callback.retryInstallationCheck,
      Event.log "[!] a not installed.",
      Event.log "Please install it in the emulator, complete tutorial, then click Retry in the GUI",
      Event.sleep 500,
      Event.changeStatus "Checking for package installation...",
      Event.changeStatus "Installation complete - continuing...",
      Event.log "[+] Installation confirmed, continuing..."].getLast? =
      some (Event.log "[+] Installation confirmed, continuing...")) ∧
    ([Event.showTemporaryAction "a not installed - please install it and complete tutorial"
        "Retry" Callback.retryInstallationCheck,
      Event.log "[!] a not installed.",
      Event.log "Please install it in the emulator, complete tutorial, then click Retry in the GUI",
      Event.sleep 500,
      Event.changeStatus "Checking for package installation...",
      Event.changeStatus "Installation complete - continuing...",
      Event.log "[+] Installation confirmed, continuing..."].all
        (fun e => !(Event.isSleep e) || e == Event.sleep 500) = true) :=
  wait_for_clash_installation_spec (fun _ => true) [true] "a" ⟨none, false⟩
    ⟨some "a", false⟩
    [Event.showTemporaryAction "a not installed - please install it and complete tutorial"
        "Retry" Callback.retryInstallationCheck,
     Event.log "[!] a not installed.",
     Event.log "Please install it in the emulator, complete tutorial, then click Retry in the GUI",
     Event.sleep 500,
     Event.changeStatus "Checking for package installation...",
     Event.changeStatus "Installation complete - continuing...",
     Event.log "[+] Installation confirmed, continuing..."]
    true (by decide)

/-- C2: when the pending package (via the getattr probe) is reported installed,
the retry callback clears `installation_waiting`, updates the UI status with
the installation-complete message, and registers no new temporary action. -/
theorem retry_installation_check_installed (f : String → Bool) (s : CoordState)
    (h : f (retry_package_name s) = true) :
    (retry_installation_check f s).1.installation_waiting = false ∧
    Event.changeStatus "Installation complete - continuing..." ∈ (retry_installation_check f s).2 ∧
    (retry_installation_check f s).2.countP Event.isShowTemporaryAction = 0 := by
  unfold retry_installation_check
  simp [h, Event.isShowTemporaryAction]

/-- Witness for C2 at a concrete state with pending package "a". -/
theorem retry_installation_check_installed_witness :
    (retry_installation_check (fun _ => true) ⟨some "a", true⟩).1.installation_waiting = false ∧
    Event.changeStatus "Installation complete - continuing..." ∈
      (retry_installation_check (fun _ => true) ⟨some "a", true⟩).2 ∧
    (retry_installation_check (fun _ => true) ⟨some "a", true⟩).2.countP
      Event.isShowTemporaryAction = 0 :=
  retry_installation_check_installed (fun _ => true) ⟨some "a", true⟩ rfl

/-- C3: when the pending package is still missing, the retry callback leaves
`installation_waiting` true, registers exactly one new temporary action, and
emits exactly one log line, the still-not-installed notice. -/
theorem retry_installation_check_not_installed (f : String → Bool) (s : CoordState)
    (hw : s.installation_waiting = true)
    (h : f (retry_package_name s) = false) :
    (retry_installation_check f s).1.installation_waiting = true ∧
    (retry_installation_check f s).2.countP Event.isShowTemporaryAction = 1 ∧
    (retry_installation_check f s).2.countP Event.isLog = 1 ∧
    Event.log ("[!] " ++ retry_package_name s ++ " still not installed. Please try again.") ∈
      (retry_installation_check f s).2 := by
  unfold retry_installation_check
  simp [h, hw, Event.isShowTemporaryAction, Event.isLog]

/-- Witness for C3 at a concrete state with pending package "a". -/
theorem retry_installation_check_not_installed_witness :
    (retry_installation_check (fun _ => false) ⟨some "a", true⟩).1.installation_waiting = true ∧
    (retry_installation_check (fun _ => false) ⟨some "a", true⟩).2.countP
      Event.isShowTemporaryAction = 1 ∧
    (retry_installation_check (fun _ => false) ⟨some "a", true⟩).2.countP Event.isLog = 1 ∧
    Event.log ("[!] " ++ retry_package_name ⟨some "a", true⟩ ++ " still not installed. Please try again.") ∈
      (retry_installation_check (fun _ => false) ⟨some "a", true⟩).2 :=
  retry_installation_check_not_installed (fun _ => false) ⟨some "a", true⟩ rfl rfl

/-- Counterexample to C4: at package "com.example.app", the prompt message of
the temporary action re-registered by the retry callback differs from the
prompt message of the action originally shown by
`_wait_for_clash_installation` ("still not found" versus "not installed"), so
the re-registered action is not the same prompt. -/
theorem retry_reregistered_message_differs :
    (retry_installation_check (fun _ => false) ⟨some "com.example.app", true⟩).2.filterMap
        Event.showMessage =
      ["com.example.app still not found - please install it and complete tutorial"] ∧
    (wait_setup_events "com.example.app").filterMap Event.showMessage =
      ["com.example.app not installed - please install it and complete tutorial"] ∧
    (retry_installation_check (fun _ => false) ⟨some "com.example.app", true⟩).2.filterMap
        Event.showMessage ≠
      (wait_setup_events "com.example.app").filterMap Event.showMessage :=
  ⟨by decide, by decide, by decide⟩

/-- C4 (amended): when the package check fails, the temporary action the retry
callback re-registers has the same action text "Retry" and the same callback
`_retry_installation_check` as the action originally shown by
`_wait_for_clash_installation` for the same package, but its prompt message is
the distinct "still not found" wording rather than the original "not
installed" wording. -/
theorem retry_reregisters_same_action_and_callback (f : String → Bool) (s : CoordState)
    (h : f (retry_package_name s) = false) :
    (retry_installation_check f s).2.filterMap Event.showActionParts =
      [("Retry", Callback.retryInstallationCheck)] ∧
    (wait_setup_events (retry_package_name s)).filterMap Event.showActionParts =
      [("Retry", Callback.retryInstallationCheck)] ∧
    (retry_installation_check f s).2.filterMap Event.showMessage =
      [retry_package_name s ++ " still not found - please install it and complete tutorial"] ∧
    (wait_setup_events (retry_package_name s)).filterMap Event.showMessage =
      [retry_package_name s ++ " not installed - please install it and complete tutorial"] := by
  unfold retry_installation_check wait_setup_events
  simp [h, Event.showActionParts, Event.showMessage]

/-- Witness for the amended C4 at a concrete state with pending package "a". -/
theorem retry_reregisters_same_action_and_callback_witness :
    (retry_installation_check (fun _ => false) ⟨some "a", true⟩).2.filterMap
        Event.showActionParts = [("Retry", Callback.retryInstallationCheck)] ∧
    (wait_setup_events (retry_package_name ⟨some "a", true⟩)).filterMap
        Event.showActionParts = [("Retry", Callback.retryInstallationCheck)] ∧
    (retry_installation_check (fun _ => false) ⟨some "a", true⟩).2.filterMap
        Event.showMessage =
      [retry_package_name ⟨some "a", true⟩ ++ " still not found - please install it and complete tutorial"] ∧
    (wait_setup_events (retry_package_name ⟨some "a", true⟩)).filterMap
        Event.showMessage =
      [retry_package_name ⟨some "a", true⟩ ++ " not installed - please install it and complete tutorial"] :=
  retry_reregisters_same_action_and_callback (fun _ => false) ⟨some "a", true⟩ rfl

/-- C5: releasing a controller whose `_auto_stop_on_del` attribute is unset or
true invokes `stop` exactly once, and an exception raised inside `stop` is
caught and discarded — `__del__` itself never raises. -/
theorem del_method_auto_stop (auto_stop_on_del : Option Bool)
    (stop_impl : Except PyError Unit)
    (h : auto_stop_on_del = none ∨ auto_stop_on_del = some true) :
    del_method auto_stop_on_del stop_impl = (1, Except.ok ()) := by
  rcases h with rfl | rfl <;> cases stop_impl <;> rfl

/-- Witness for C5: the attribute is unset and `stop` raises; `stop` is still
invoked once and the error is swallowed. -/
theorem del_method_auto_stop_witness :
    del_method none (Except.error PyError.notImplementedError) = (1, Except.ok ()) :=
  del_method_auto_stop none (Except.error PyError.notImplementedError) (Or.inl rfl)

/-- C6: releasing a controller with `_auto_stop_on_del = False` does not invoke
`stop` at all and completes without raising, whatever `stop` would do. -/
theorem del_method_opt_out (stop_impl : Except PyError Unit) :
    del_method (some false) stop_impl = (0, Except.ok ()) := rfl

/-- C7: invoking the retry callback while `current_package_name` is unset does
not raise: the getattr probe falls back to the default package identifier
"com.supercell.clashroyale", and the callback behaves exactly as it would with
the default recorded as the pending package. -/
theorem retry_unset_package_fallback (f : String → Bool) (s : CoordState)
    (h : s.current_package_name = none) :
    retry_package_name s = "com.supercell.clashroyale" ∧
    (retry_installation_check f s).1.installation_waiting =
      (retry_installation_check f
        { s with current_package_name := some "com.supercell.clashroyale" }).1.installation_waiting ∧
    (retry_installation_check f s).2 =
      (retry_installation_check f
        { s with current_package_name := some "com.supercell.clashroyale" }).2 := by
  have hp : retry_package_name s = "com.supercell.clashroyale" := by
    simp [retry_package_name, h]
  have hq : retry_package_name { s with current_package_name := some "com.supercell.clashroyale" } =
      "com.supercell.clashroyale" := rfl
  refine ⟨hp, ?_, ?_⟩ <;>
    unfold retry_installation_check <;>
    rw [hp, hq] <;>
    by_cases hc : f "com.supercell.clashroyale" <;> simp [hc]

/-- Witness for C7 at the state whose package attribute was never assigned. -/
theorem retry_unset_package_fallback_witness :
    retry_package_name ⟨none, true⟩ = "com.supercell.clashroyale" ∧
    (retry_installation_check (fun _ => true) ⟨none, true⟩).1.installation_waiting =
      (retry_installation_check (fun _ => true)
        ⟨some "com.supercell.clashroyale", true⟩).1.installation_waiting ∧
    (retry_installation_check (fun _ => true) ⟨none, true⟩).2 =
      (retry_installation_check (fun _ => true)
        ⟨some "com.supercell.clashroyale", true⟩).2 :=
  retry_unset_package_fallback (fun _ => true) ⟨none, true⟩ rfl

/-- C8: every operation of the capability set declared on the base controller
raises `NotImplementedError` when invoked on the base class, and the error is
handed to the caller rather than caught inside the base class. -/
theorem base_capability_set_raises :
    create = Except.error PyError.notImplementedError ∧
    configure = Except.error PyError.notImplementedError ∧
    restart = Except.error PyError.notImplementedError ∧
    start = Except.error PyError.notImplementedError ∧
    stop = Except.error PyError.notImplementedError ∧
    (∀ (I : Type) (x y : Int) (c : Nat) (i : I),
      @click I x y c i = Except.error PyError.notImplementedError) ∧
    (∀ x1 y1 x2 y2 : Int, swipe x1 y1 x2 y2 = Except.error PyError.notImplementedError) ∧
    screenshot = Except.error PyError.notImplementedError ∧
    (∀ p : String, install_apk p = Except.error PyError.notImplementedError) ∧
    (∀ p : String, start_app p = Except.error PyError.notImplementedError) ∧
    (∀ p : String, is_package_installed_stub p = Except.error PyError.notImplementedError) :=
  ⟨rfl, rfl, rfl, rfl, rfl, fun _ _ _ _ _ => rfl, fun _ _ _ _ => rfl, rfl,
   fun _ => rfl, fun _ => rfl, fun _ => rfl⟩

/-- C9: `current_package_name` is assigned `p` before the Retry action is
registered, so every state reachable by retry-callback invocations from the
registered wait state still records `p`, and the getattr probe the callback
feeds to `_is_package_installed` yields exactly `p`. -/
theorem retry_queries_pending_package (f : String → Bool) (p : String)
    (s s' : CoordState)
    (h : RetryReachable f (wait_setup_state p s) s') :
    s'.current_package_name = some p ∧ retry_package_name s' = p := by
  induction h with
  | refl => exact ⟨rfl, rfl⟩
  | step t hr ih =>
      obtain ⟨h1, h2⟩ := ih
      refine ⟨by rw [retry_preserves_package, h1], ?_⟩
      unfold retry_package_name
      rw [retry_preserves_package, h1]
      rfl

/-- Witness for C9: one retry invocation after a failed check still queries the
originally recorded package "a". -/
theorem retry_queries_pending_package_witness :
    (retry_installation_check (fun _ => false)
        (wait_setup_state "a" ⟨none, false⟩)).1.current_package_name = some "a" ∧
    retry_package_name
      (retry_installation_check (fun _ => false) (wait_setup_state "a" ⟨none, false⟩)).1 = "a" :=
  retry_queries_pending_package (fun _ => false) "a" ⟨none, false⟩ _
    (RetryReachable.step _ RetryReachable.refl)

/-- C10: the base-class constructor unconditionally raises
`NotImplementedError`, so no controller value is ever produced by the base
class itself. -/
theorem init_always_raises :
    init = Except.error PyError.notImplementedError :=
  rfl

end BaseEmulatorController
